import Mathlib

/-!
Shallow embedding of the spl-staking program (src/instruction.rs,
src/state.rs, src/processor.rs) for checking its specification.

Conventions of the embedding:
* `u64` and `u128` machine integers become `Nat` with explicit reductions
  `% 2^64` / `% 2^128` at exactly the places the Rust code can wrap.  The
  program is compiled for the on-chain (release) profile, so unchecked
  `+`/`-`/`*` and `as` casts wrap; `saturating_add` / `saturating_sub`
  saturate.  `Nat` subtraction already saturates at zero, which matches
  `saturating_sub`; plain `u64`/`u128` subtraction is modelled with an
  explicit wrap-around term.
* `Pubkey` (a 32-byte address) is abstracted to `Nat`; the program only
  compares addresses for equality and feeds them to the program-derived
  address function.
* `Pubkey::find_program_address` is an external runtime service (a hash).
  The two seed tuples the program uses — `("spl_staking", admin, mint)`
  and `("spl_staking_user", owner)` — become the inductive `Seeds`, and the
  derivation itself is a function parameter `fpa : Seeds → Pubkey → Pubkey × Nat`
  (seed tuple, program id ↦ derived address, bump), so every theorem holds
  for an arbitrary derivation function unless it instantiates one.
* The external token / system programs are out of scope: the calls the
  processor issues to them (`create_account`, `set_authority`,
  `transfer_checked_with_fee`) are recorded as an ordered `List Event`
  returned next to the result, and the token-2022 mint's transfer-fee
  schedule (`TransferFeeConfig::calculate_epoch_fee` at the current epoch)
  is a function parameter `feeSched : Nat → Nat`.
* Fallible Rust paths return `Except ProgramError _`; a Rust panic
  (out-of-bounds slice index in `array_ref!`) is the distinct outcome
  `UnpackResult.panic`.
-/

namespace SplStaking

/-- 2^64, the wrap-around modulus of `u64`. -/
def U64MOD : Nat := 18446744073709551616

/-- 2^128, the wrap-around modulus of `u128`. -/
def U128MOD : Nat := 340282366920938463463374607431768211456

/-- Wrapping `u64` reduction (release-profile overflow semantics). -/
def wrap64 (n : Nat) : Nat := n % U64MOD

/-- Wrapping `u128` reduction. -/
def wrap128 (n : Nat) : Nat := n % U128MOD

/-- `u64::saturating_add`. -/
def satAdd64 (a b : Nat) : Nat := min (a + b) (U64MOD - 1)

/-- Wrapping `u128` subtraction `a - b` (both operands below 2^128). -/
def wsub128 (a b : Nat) : Nat := (U128MOD + a - b) % U128MOD

/-- Abstract 32-byte address. -/
abbrev Pubkey := Nat

/-- The token-2022 program id `spl_token_2022::ID`, an abstract address. -/
def spl_token_2022_ID : Pubkey := 2022

/-- `state.rs`: `enum StakeType { NORMAL, LOCKED }`. -/
inductive StakeType
  | NORMAL
  | LOCKED
deriving DecidableEq, Repr

/-- `state.rs`: `struct ContractData` (plus the `fee_basis_points` /
`max_fee` fields the processor's `init` writes in the latest revision). -/
structure ContractData where
  is_initialized : Bool
  admin_pubkey : Pubkey
  stake_token_mint : Pubkey
  stake_token_account : Pubkey
  minimum_stake_amount : Nat
  minimum_lock_duration : Nat
  normal_staking_apy : Nat
  locked_staking_apy : Nat
  early_withdrawal_fee : Nat
  total_staked : Nat
  total_earned : Nat
  fee_basis_points : Nat
  max_fee : Nat
deriving DecidableEq, Repr

/-- `ContractData::LEN` (the packed byte width; the two extra u64 fields
of the latest revision included). -/
def ContractData.LEN : Nat := 1 + 32 + 32 + 32 + 8 + 8 + 8 + 8 + 8 + 8 + 8

/-- `state.rs`: `struct UserData`. -/
structure UserData where
  is_initialized : Bool
  owner_pubkey : Pubkey
  stake_type : StakeType
  lock_duration : Nat
  total_staked : Nat
  interest_accrued : Nat
  stake_ts : Nat
  last_claim_ts : Nat
  last_unstake_ts : Nat
deriving DecidableEq, Repr

/-- `UserData::LEN`. -/
def UserData.LEN : Nat := 1 + 32 + 8 + 8 + 8 + 8 + 8 + 8 + 8

/-- The `ProgramError` variants the program returns. -/
inductive ProgramError
  | MissingRequiredSignature
  | InvalidAccountData
  | InvalidInstructionData
  | InsufficientFunds
  | AccountAlreadyInitialized
deriving DecidableEq, Repr

/-- The two seed tuples fed to `Pubkey::find_program_address`:
`contract admin mint` stands for `("spl_staking", admin, mint)` and
`user owner` for `("spl_staking_user", owner)`. -/
inductive Seeds
  | contract (admin mint : Pubkey)
  | user (owner : Pubkey)
deriving DecidableEq, Repr

/-- Side-effecting external calls the processor issues, in program order. -/
inductive Event
  | createAccount (funder newAccount : Pubkey) (space : Nat) (owner : Pubkey)
  | setAuthority (tokenAccount newAuthority oldAuthority : Pubkey)
  | transferWithFee (source mint dest authority : Pubkey)
      (amount decimals fee : Nat)
deriving DecidableEq, Repr

/-- `instruction.rs`: `enum Instruction`, with the decoded little-endian
`u64` payload fields. -/
inductive Instruction
  | Init (minimum_stake_amount minimum_lock_duration normal_staking_apy
      locked_staking_apy early_withdrawal_fee fee_basis_points max_fee : Nat)
  | Stake (stake_type : StakeType) (amount decimals lock_duration : Nat)
  | UnStake (decimals : Nat)
  | ChangeTransferFeeConfig (fee_basis_points max_fee : Nat)
  | UpdateAPY (normal_staking_apy locked_staking_apy : Nat)
deriving DecidableEq, Repr

/-- Outcome of `Instruction::unpack` on a byte buffer: a decoded
instruction, a returned `ProgramError::InvalidInstructionData`, or a Rust
panic (the `array_ref!` macro indexes `&rest[0..N]`, which panics when the
slice is shorter than `N` instead of returning an error). -/
inductive UnpackResult
  | ok (i : Instruction)
  | invalidInstructionData
  | panic
deriving DecidableEq, Repr

/-- `u64::from_le_bytes` on the first 8 entries of a byte list. -/
def le64 (l : List Nat) : Nat :=
  (l.take 8).foldr (fun b acc => b + 256 * acc) 0

/-- `instruction.rs`: `Instruction::unpack_u64` — takes the first 8 bytes
of the slice, failing when fewer than 8 remain. -/
def unpack_u64 (l : List Nat) : Except ProgramError Nat :=
  if 8 ≤ l.length then .ok (le64 l) else .error .InvalidInstructionData

/-- `instruction.rs`: `Instruction::unpack`.  Field offsets follow
`array_refs!`; a buffer shorter than the `array_ref![rest, 0, N]` width
panics, exactly as the macro's slice indexing does. -/
def Instruction.unpack (input : List Nat) : UnpackResult :=
  match input with
  | [] => .invalidInstructionData
  | tag :: rest =>
    if tag = 0 then
      if rest.length < 56 then .panic
      else
        .ok (.Init (le64 rest) (le64 (rest.drop 8)) (le64 (rest.drop 16))
          (le64 (rest.drop 24)) (le64 (rest.drop 32)) (le64 (rest.drop 40))
          (le64 (rest.drop 48)))
    else if tag = 1 then
      if rest.length < 25 then .panic
      else
        let stakeByte := rest.headI
        if stakeByte = 0 then
          .ok (.Stake .NORMAL (le64 (rest.drop 1)) (le64 (rest.drop 9))
            (le64 (rest.drop 17)))
        else if stakeByte = 1 then
          .ok (.Stake .LOCKED (le64 (rest.drop 1)) (le64 (rest.drop 9))
            (le64 (rest.drop 17)))
        else .invalidInstructionData
    else if tag = 2 then
      match unpack_u64 rest with
      | .ok d => .ok (.UnStake d)
      | .error _ => .invalidInstructionData
    else if tag = 3 then
      if rest.length < 16 then .panic
      else .ok (.ChangeTransferFeeConfig (le64 rest) (le64 (rest.drop 8)))
    else if tag = 4 then
      if rest.length < 16 then .panic
      else .ok (.UpdateAPY (le64 rest) (le64 (rest.drop 8)))
    else .invalidInstructionData

/-- Wrapping `u64` subtraction `a - b` (both operands below 2^64). -/
def wsub64 (a b : Nat) : Nat := (U64MOD + a - b) % U64MOD

/-- The interest expression of `processor.rs` (perform_unstake lines
474-476 / 490-492 and perform_staking lines 698-701):
`((apy as u128 * total_staked as u128 * duration as u128) / 31536000000) as u64`.
The `u128` multiplications and the final `as u64` cast wrap. -/
def interestAccrued (apy total_staked duration : Nat) : Nat :=
  wrap64 (wrap128 (apy * total_staked * duration) / 31536000000)

/-- The fields of a `spl_token_2022` token account the processor reads. -/
structure TokenAccount where
  mint : Pubkey
  owner : Pubkey
  amount : Nat
deriving DecidableEq, Repr

/-- The account inputs of `Processor::init`, with the data the processor
reads from each `AccountInfo`: pubkeys, signer/writable flags, the owning
program of the token and mint accounts, and the `ContractData` that
`ContractData::unpack_unchecked` yields from the record account's bytes. -/
structure InitAccounts where
  admin_key : Pubkey
  admin_is_signer : Bool
  data_account_key : Pubkey
  data_account_is_writable : Bool
  data_account_contract : ContractData
  token_account_key : Pubkey
  token_account_owner : Pubkey
  mint_key : Pubkey
  mint_owner : Pubkey
  token_program_key : Pubkey
deriving DecidableEq, Repr

/-- The account inputs shared by `Processor::stake` and
`Processor::unstake`: the user, the user's token account, the user-record
account (`user_data_len` is `AccountInfo::data_len`, `user_data` the
parsed `UserData` when the account is non-empty), the contract's token
account and record, and the mint. -/
structure StakeAccounts where
  user_key : Pubkey
  user_is_signer : Bool
  user_token_key : Pubkey
  user_token : TokenAccount
  user_data_key : Pubkey
  user_data_len : Nat
  user_data : UserData
  contract_token_key : Pubkey
  contract_token : TokenAccount
  contract_data_key : Pubkey
  contract_data : ContractData
  mint_key : Pubkey
deriving DecidableEq, Repr

/-- The account inputs of `Processor::update_apy`. -/
structure UpdateApyAccounts where
  admin_key : Pubkey
  admin_is_signer : Bool
  data_account_key : Pubkey
  data_account_is_writable : Bool
  contract_data : ContractData
deriving DecidableEq, Repr

namespace Processor

/-- `Processor::init` (processor.rs lines 82-199).  Checks run in source
order; the `create_account` and `set_authority` external calls are
recorded as events; the function returns the `ContractData` it packs back
on success.  `fpa` is the runtime's `Pubkey::find_program_address`. -/
def init (fpa : Seeds → Pubkey → Pubkey × Nat) (program_id : Pubkey)
    (a : InitAccounts)
    (minimum_stake_amount minimum_lock_duration normal_staking_apy
     locked_staking_apy early_withdrawal_fee fee_basis_points max_fee : Nat) :
    List Event × Except ProgramError ContractData :=
  if !a.admin_is_signer then ([], .error .MissingRequiredSignature)
  else if !a.data_account_is_writable then ([], .error .InvalidAccountData)
  else if minimum_stake_amount = 0 then ([], .error .InvalidInstructionData)
  else if a.token_program_key ≠ spl_token_2022_ID then
    ([], .error .InvalidInstructionData)
  else if a.token_account_owner ≠ spl_token_2022_ID then
    ([], .error .InvalidAccountData)
  else if a.mint_owner ≠ spl_token_2022_ID then ([], .error .InvalidAccountData)
  else
    let pda := fpa (.contract a.admin_key a.mint_key) program_id
    if pda.1 ≠ a.data_account_key then ([], .error .InvalidAccountData)
    else
      let ev1 := Event.createAccount a.admin_key a.data_account_key
        ContractData.LEN program_id
      let ev2 := Event.setAuthority a.token_account_key pda.1 a.admin_key
      let contract_data := a.data_account_contract
      if contract_data.is_initialized then
        ([ev1, ev2], .error .AccountAlreadyInitialized)
      else
        ([ev1, ev2], .ok
          { is_initialized := true
            admin_pubkey := a.admin_key
            stake_token_mint := a.mint_key
            stake_token_account := a.token_account_key
            minimum_stake_amount := minimum_stake_amount
            minimum_lock_duration := minimum_lock_duration
            normal_staking_apy := normal_staking_apy
            locked_staking_apy := locked_staking_apy
            early_withdrawal_fee := early_withdrawal_fee
            total_staked := 0
            total_earned := 0
            fee_basis_points := fee_basis_points
            max_fee := max_fee })

/-- `Processor::perform_staking` (processor.rs lines 569-713).
`current_ts` is `Clock::get().unix_timestamp as u64` and `feeSched` the
mint's `get_transfer_fee`.  Returns the `UserData` and `ContractData`
written back on success. -/
def perform_staking (fpa : Seeds → Pubkey → Pubkey × Nat)
    (program_id : Pubkey) (a : StakeAccounts) (current_ts : Nat)
    (feeSched : Nat → Nat) (stake_type : StakeType)
    (amount decimals apy lock_duration : Nat) :
    List Event × Except ProgramError (UserData × ContractData) :=
  let upda := fpa (.user a.user_key) program_id
  if a.user_data_key ≠ upda.1 then ([], .error .InvalidAccountData)
  else
    let contract_data := a.contract_data
    let createEvs : List Event :=
      if a.user_data_len = 0 then
        [Event.createAccount a.user_key upda.1 UserData.LEN program_id]
      else []
    let user_data : UserData :=
      if a.user_data_len = 0 then
        { is_initialized := false
          owner_pubkey := a.user_key
          stake_type := stake_type
          lock_duration := lock_duration
          total_staked := 0
          interest_accrued := 0
          stake_ts := current_ts
          last_claim_ts := 0
          last_unstake_ts := 0 }
      else a.user_data
    if !user_data.is_initialized then
      let fee := feeSched amount
      let ev := Event.transferWithFee a.user_token_key
        contract_data.stake_token_mint a.contract_token_key a.user_key
        amount decimals fee
      (createEvs ++ [ev], .ok
        ({ user_data with is_initialized := true, total_staked := amount },
         { contract_data with
            total_staked := wrap64 (contract_data.total_staked + amount) }))
    else
      if stake_type ≠ user_data.stake_type then
        (createEvs, .error .InvalidInstructionData)
      else
        let fee := feeSched amount
        let ev := Event.transferWithFee a.user_token_key
          contract_data.stake_token_mint a.contract_token_key a.user_key
          amount decimals fee
        let stake_interval := wsub64 current_ts user_data.stake_ts
        let interest := interestAccrued apy user_data.total_staked stake_interval
        (createEvs ++ [ev], .ok
          ({ user_data with
              interest_accrued := wrap64 (user_data.interest_accrued + interest)
              total_staked := wrap64 (user_data.total_staked + amount)
              stake_ts := current_ts
              lock_duration := lock_duration },
           { contract_data with
              total_staked := wrap64 (contract_data.total_staked + amount)
              total_earned := wrap64 (contract_data.total_earned + interest) }))

/-- `Processor::stake` (processor.rs lines 201-306): the account checks in
source order, then dispatch to `perform_staking` with the APY declared for
the requested stake type. -/
def stake (fpa : Seeds → Pubkey → Pubkey × Nat) (program_id : Pubkey)
    (a : StakeAccounts) (current_ts : Nat) (feeSched : Nat → Nat)
    (stake_type : StakeType) (amount lock_duration decimals : Nat) :
    List Event × Except ProgramError (UserData × ContractData) :=
  let contract_data := a.contract_data
  if !a.user_is_signer then ([], .error .MissingRequiredSignature)
  else if a.user_token.owner ≠ a.user_key then ([], .error .InvalidAccountData)
  else if a.user_token.mint ≠ contract_data.stake_token_mint then
    ([], .error .InvalidAccountData)
  else if a.user_token.amount < contract_data.minimum_stake_amount then
    ([], .error .InsufficientFunds)
  else
    let cpda := fpa (.contract contract_data.admin_pubkey
      contract_data.stake_token_mint) program_id
    if cpda.1 ≠ a.contract_data_key then ([], .error .InvalidAccountData)
    else if a.contract_token_key ≠ contract_data.stake_token_account then
      ([], .error .InvalidAccountData)
    else if contract_data.stake_token_mint ≠ a.contract_token.mint then
      ([], .error .InvalidAccountData)
    else if cpda.1 ≠ a.contract_token.owner then
      ([], .error .InvalidAccountData)
    else
      match stake_type with
      | .NORMAL =>
        perform_staking fpa program_id a current_ts feeSched .NORMAL amount
          decimals contract_data.normal_staking_apy 0
      | .LOCKED =>
        if lock_duration < contract_data.minimum_lock_duration then
          ([], .error .InvalidInstructionData)
        else
          perform_staking fpa program_id a current_ts feeSched .LOCKED amount
            decimals contract_data.locked_staking_apy lock_duration

/-- What `Processor::perform_unstake` writes back and hands to the token
transfer: the new contract record, the computed payout `amount_out`, the
gross `amount_out_with_fee = amount_out + floor(9*amount_out/100)` passed
as the transfer amount, and `new_fee`, the mint schedule's epoch fee on
that gross, passed as the transfer's expected fee. -/
structure UnstakeResult where
  contract : ContractData
  amount_out : Nat
  amount_out_with_fee : Nat
  new_fee : Nat
deriving DecidableEq, Repr

/-- `Processor::perform_unstake` (processor.rs lines 436-552).  On success
the user record's lamports are moved to the contract record (the record is
closed); the returned `UnstakeResult.contract` is the record packed back. -/
def perform_unstake (fpa : Seeds → Pubkey → Pubkey × Nat)
    (program_id : Pubkey) (a : StakeAccounts) (current_ts : Nat)
    (feeSched : Nat → Nat) (stake_type : StakeType) (apy decimals : Nat) :
    List Event × Except ProgramError UnstakeResult :=
  let upda := fpa (.user a.user_key) program_id
  if a.user_data_key ≠ upda.1 then ([], .error .InvalidAccountData)
  else
    let contract_data := a.contract_data
    let user_data := a.user_data
    let step : Except ProgramError (ContractData × Nat) :=
      match stake_type with
      | .NORMAL =>
        let stake_duration := wsub64 current_ts user_data.stake_ts
        if stake_duration < 86400 then .error .InvalidAccountData
        else
          let interest := interestAccrued apy user_data.total_staked stake_duration
          let contract1 := { contract_data with
            total_earned := satAdd64 contract_data.total_earned interest }
          let interest2 := wrap64 (interest + user_data.interest_accrued)
          .ok (contract1, wrap64 (user_data.total_staked + interest2))
      | .LOCKED =>
        let stake_duration := wsub64 current_ts user_data.stake_ts
        if user_data.lock_duration ≤ stake_duration then
          let interest := interestAccrued apy user_data.total_staked stake_duration
          let contract1 := { contract_data with
            total_earned := satAdd64 contract_data.total_earned interest }
          let interest2 := wrap64 (interest + user_data.interest_accrued)
          .ok (contract1, wrap64 (interest2 + user_data.total_staked))
        else
          let charge := (contract_data.early_withdrawal_fee *
            user_data.total_staked) / 1000
          .ok (contract_data, wrap64 (wsub128 user_data.total_staked charge))
    match step with
    | .error e => ([], .error e)
    | .ok (contract1, amount_out) =>
      let apda := fpa (.contract contract_data.admin_pubkey
        contract_data.stake_token_mint) program_id
      let fee := wrap64 ((9 * amount_out) / 100)
      let amount_out_with_fee := wrap64 (amount_out + fee)
      let new_fee := feeSched amount_out_with_fee
      let ev := Event.transferWithFee a.contract_token_key
        contract_data.stake_token_mint a.user_token_key apda.1
        amount_out_with_fee decimals new_fee
      let contract2 := { contract1 with
        total_staked := contract1.total_staked - a.user_data.total_staked }
      ([ev], .ok ⟨contract2, amount_out, amount_out_with_fee, new_fee⟩)

/-- `Processor::unstake` (processor.rs lines 308-398): the account checks
(identical to `stake`), then dispatch on the user record's stored
`stake_type` with the matching declared APY. -/
def unstake (fpa : Seeds → Pubkey → Pubkey × Nat) (program_id : Pubkey)
    (a : StakeAccounts) (current_ts : Nat) (feeSched : Nat → Nat)
    (decimals : Nat) : List Event × Except ProgramError UnstakeResult :=
  let contract_data := a.contract_data
  if !a.user_is_signer then ([], .error .MissingRequiredSignature)
  else if a.user_token.owner ≠ a.user_key then ([], .error .InvalidAccountData)
  else if a.user_token.mint ≠ contract_data.stake_token_mint then
    ([], .error .InvalidAccountData)
  else if a.user_token.amount < contract_data.minimum_stake_amount then
    ([], .error .InsufficientFunds)
  else
    let cpda := fpa (.contract contract_data.admin_pubkey
      contract_data.stake_token_mint) program_id
    if cpda.1 ≠ a.contract_data_key then ([], .error .InvalidAccountData)
    else if a.contract_token_key ≠ contract_data.stake_token_account then
      ([], .error .InvalidAccountData)
    else if contract_data.stake_token_mint ≠ a.contract_token.mint then
      ([], .error .InvalidAccountData)
    else if cpda.1 ≠ a.contract_token.owner then
      ([], .error .InvalidAccountData)
    else
      match a.user_data.stake_type with
      | .NORMAL =>
        perform_unstake fpa program_id a current_ts feeSched .NORMAL
          contract_data.normal_staking_apy decimals
      | .LOCKED =>
        perform_unstake fpa program_id a current_ts feeSched .LOCKED
          contract_data.locked_staking_apy decimals

/-- `Processor::update_apy` (processor.rs lines 400-434).  The function
receives the program id but never uses it: no program-derived address is
computed or compared; the only record check is that the embedded
`admin_pubkey` equals the signer. -/
def update_apy (_program_id : Pubkey) (a : UpdateApyAccounts)
    (normal_staking_apy locked_staking_apy : Nat) :
    List Event × Except ProgramError ContractData :=
  if !a.admin_is_signer then ([], .error .MissingRequiredSignature)
  else if !a.data_account_is_writable then ([], .error .InvalidAccountData)
  else if normal_staking_apy < 1 ∨ locked_staking_apy < 1 then
    ([], .error .InvalidInstructionData)
  else if a.contract_data.admin_pubkey ≠ a.admin_key then
    ([], .error .InvalidAccountData)
  else
    ([], .ok { a.contract_data with
        normal_staking_apy := normal_staking_apy
        locked_staking_apy := locked_staking_apy })

end Processor

deriving instance DecidableEq for Except

/-! ## Concrete instances used by witnesses and counterexamples -/

/-- A concrete program id. -/
def pid0 : Pubkey := 7

/-- A concrete derivation function standing in for
`Pubkey::find_program_address` in closed evaluations. -/
def fpa0 : Seeds → Pubkey → Pubkey × Nat
  | .contract a m, _ => (1000 + a + m, 254)
  | .user o, _ => (2000 + o, 253)

/-- The all-zero (freshly allocated, uninitialized) contract record. -/
def emptyContract : ContractData :=
  { is_initialized := false, admin_pubkey := 0, stake_token_mint := 0,
    stake_token_account := 0, minimum_stake_amount := 0,
    minimum_lock_duration := 0, normal_staking_apy := 0,
    locked_staking_apy := 0, early_withdrawal_fee := 0,
    total_staked := 0, total_earned := 0, fee_basis_points := 0, max_fee := 0 }

/-- An initialized contract record for admin 1 / mint 2 (derived address
under `fpa0`, `pid0`: 1003). -/
def sampleContract : ContractData :=
  { emptyContract with
    is_initialized := true
    admin_pubkey := 1
    stake_token_mint := 2
    stake_token_account := 4
    minimum_stake_amount := 100
    normal_staking_apy := 100
    locked_staking_apy := 200
    total_staked := 17
    total_earned := 9 }

/-- UpdateAPY inputs whose contract-record account sits at address 55,
different from the derived address 1003 of its embedded admin+mint. -/
def cx1_accs : UpdateApyAccounts :=
  { admin_key := 1, admin_is_signer := true, data_account_key := 55,
    data_account_is_writable := true, contract_data := sampleContract }

/-- The record `update_apy` writes back for `cx1_accs` with APYs 5 / 6. -/
def cx1_expected : ContractData :=
  { sampleContract with
    normal_staking_apy := 5
    locked_staking_apy := 6 }

/-- Init inputs whose contract-record account (55) differs from the
derived address (1003). -/
def cw1_accs : InitAccounts :=
  { admin_key := 1, admin_is_signer := true, data_account_key := 55,
    data_account_is_writable := true, data_account_contract := emptyContract,
    token_account_key := 4, token_account_owner := spl_token_2022_ID,
    mint_key := 2, mint_owner := spl_token_2022_ID,
    token_program_key := spl_token_2022_ID }

/-- Init inputs at the correctly derived record address (1003) but with a
record that already reports initialized. -/
def cx2_accs : InitAccounts :=
  { admin_key := 1, admin_is_signer := true, data_account_key := 1003,
    data_account_is_writable := true, data_account_contract := sampleContract,
    token_account_key := 4, token_account_owner := spl_token_2022_ID,
    mint_key := 2, mint_owner := spl_token_2022_ID,
    token_program_key := spl_token_2022_ID }

/-- A user record holding 100 staked under NORMAL since timestamp 0. -/
def cx3_user : UserData :=
  { is_initialized := true, owner_pubkey := 3, stake_type := .NORMAL,
    lock_duration := 0, total_staked := 100, interest_accrued := 0,
    stake_ts := 0, last_claim_ts := 0, last_unstake_ts := 0 }

/-- Unstake inputs for user 3 against the `sampleContract` record, all
account cross-checks satisfied. -/
def cx3_accs : StakeAccounts :=
  { user_key := 3, user_is_signer := true, user_token_key := 5,
    user_token := { mint := 2, owner := 3, amount := 100 },
    user_data_key := 2003, user_data_len := 81, user_data := cx3_user,
    contract_token_key := 4,
    contract_token := { mint := 2, owner := 1003, amount := 1000 },
    contract_data_key := 1003, contract_data := sampleContract, mint_key := 2 }

/-- The unstake outcome for `cx3_accs` at ts 86400 with a zero fee
schedule: payout 100, gross 109, expected fee 0. -/
def cx3_expected : Processor.UnstakeResult :=
  { contract := { sampleContract with total_staked := 0 }
    amount_out := 100
    amount_out_with_fee := 109
    new_fee := 0 }

/-- A user record holding 100 staked under LOCKED (30-day lock) since
timestamp 0. -/
def cx7_user : UserData :=
  { is_initialized := true, owner_pubkey := 3, stake_type := .LOCKED,
    lock_duration := 2592000, total_staked := 100, interest_accrued := 0,
    stake_ts := 0, last_claim_ts := 0, last_unstake_ts := 0 }

/-- `sampleContract` with a 50‰ early-withdrawal fee. -/
def cx7_contract : ContractData :=
  { sampleContract with
    early_withdrawal_fee := 50 }

/-- Unstake inputs for the locked user `cx7_user`. -/
def cx7_accs : StakeAccounts :=
  { user_key := 3, user_is_signer := true, user_token_key := 5,
    user_token := { mint := 2, owner := 3, amount := 100 },
    user_data_key := 2003, user_data_len := 81, user_data := cx7_user,
    contract_token_key := 4,
    contract_token := { mint := 2, owner := 1003, amount := 1000 },
    contract_data_key := 1003, contract_data := cx7_contract, mint_key := 2 }

/-- The user record after the witness restake of 10 at ts 10000000:
interest 3 = floor(100*100*10000000/31536000000) accrued, principal 110. -/
def cw6_user_after : UserData :=
  { is_initialized := true, owner_pubkey := 3, stake_type := .NORMAL,
    lock_duration := 0, total_staked := 110, interest_accrued := 3,
    stake_ts := 10000000, last_claim_ts := 0, last_unstake_ts := 0 }

/-- The contract record after the witness restake: totals 17+10 and 9+3. -/
def cw6_contract_after : ContractData :=
  { sampleContract with
    total_staked := 27
    total_earned := 12 }

/-- The all-zero user record (a freshly allocated account's parse). -/
def emptyUser : UserData :=
  { is_initialized := false, owner_pubkey := 0, stake_type := .NORMAL,
    lock_duration := 0, total_staked := 0, interest_accrued := 0,
    stake_ts := 0, last_claim_ts := 0, last_unstake_ts := 0 }

/-- The contract record Init writes for the C9 chain: minimum stake 1,
normal APY 31536000000 (Init never validates the APY magnitude). -/
def c9_c0 : ContractData :=
  { is_initialized := true, admin_pubkey := 1, stake_token_mint := 2,
    stake_token_account := 4, minimum_stake_amount := 1,
    minimum_lock_duration := 0, normal_staking_apy := 31536000000,
    locked_staking_apy := 1, early_withdrawal_fee := 0,
    total_staked := 0, total_earned := 0, fee_basis_points := 0, max_fee := 0 }

/-- Init inputs for the C9 chain (record at its derived address 1003). -/
def c9_init_accs : InitAccounts :=
  { admin_key := 1, admin_is_signer := true, data_account_key := 1003,
    data_account_is_writable := true, data_account_contract := emptyContract,
    token_account_key := 4, token_account_owner := spl_token_2022_ID,
    mint_key := 2, mint_owner := spl_token_2022_ID,
    token_program_key := spl_token_2022_ID }

/-- User record after the chain's first stake of u64::MAX at ts 1000. -/
def c9_u1 : UserData :=
  { is_initialized := true, owner_pubkey := 3, stake_type := .NORMAL,
    lock_duration := 0, total_staked := 18446744073709551615,
    interest_accrued := 0, stake_ts := 1000, last_claim_ts := 0,
    last_unstake_ts := 0 }

/-- Contract record after the chain's first stake. -/
def c9_c1 : ContractData :=
  { c9_c0 with total_staked := 18446744073709551615 }

/-- Stake inputs for the chain's first stake (fresh user record). -/
def c9_accs1 : StakeAccounts :=
  { user_key := 3, user_is_signer := true, user_token_key := 5,
    user_token := { mint := 2, owner := 3, amount := 1 },
    user_data_key := 2003, user_data_len := 0, user_data := emptyUser,
    contract_token_key := 4,
    contract_token := { mint := 2, owner := 1003, amount := 0 },
    contract_data_key := 1003, contract_data := c9_c0, mint_key := 2 }

/-- User record after the chain's first restake (interest u64::MAX). -/
def c9_u2 : UserData :=
  { c9_u1 with interest_accrued := 18446744073709551615, stake_ts := 1001 }

/-- Contract record after the first restake: `total_earned = u64::MAX`. -/
def c9_c2 : ContractData :=
  { c9_c1 with total_earned := 18446744073709551615 }

/-- Stake inputs for the chain's first restake. -/
def c9_accs2 : StakeAccounts :=
  { c9_accs1 with
    user_data_len := 81
    user_data := c9_u1
    contract_data := c9_c1 }

/-- User record after the second restake (wrapped interest sum). -/
def c9_u3 : UserData :=
  { c9_u2 with interest_accrued := 18446744073709551614, stake_ts := 1002 }

/-- Contract record after the second restake: `total_earned` wrapped DOWN
to u64::MAX − 1. -/
def c9_c3 : ContractData :=
  { c9_c2 with total_earned := 18446744073709551614 }

/-- Stake inputs for the chain's second restake. -/
def c9_accs3 : StakeAccounts :=
  { c9_accs2 with user_data := c9_u2, contract_data := c9_c2 }

/-- Stake inputs with a fresh (empty) user record, user balance 100 equal
to the contract's minimum stake. -/
def cw10_accs : StakeAccounts :=
  { user_key := 3, user_is_signer := true, user_token_key := 5,
    user_token := { mint := 2, owner := 3, amount := 100 },
    user_data_key := 2003, user_data_len := 0, user_data := cx3_user,
    contract_token_key := 4,
    contract_token := { mint := 2, owner := 1003, amount := 1000 },
    contract_data_key := 1003, contract_data := sampleContract, mint_key := 2 }

/-! ## Theorems -/

/-- Helper: `wrap64` is the identity below 2^64. -/
theorem wrap64_eq_of_lt {n : Nat} (h : n < U64MOD) : wrap64 n = n :=
  Nat.mod_eq_of_lt h

/-- Helper: when neither the 128-bit product nor the 64-bit narrowing
overflows, the interest expression is the exact rational floor. -/
theorem interestAccrued_eq {apy T d : Nat} (h1 : apy * T * d < U128MOD)
    (h2 : apy * T * d / 31536000000 < U64MOD) :
    interestAccrued apy T d = apy * T * d / 31536000000 := by
  unfold interestAccrued wrap128 wrap64
  rw [Nat.mod_eq_of_lt h1, Nat.mod_eq_of_lt h2]

/-- Helper: wrapping `u64` subtraction is plain subtraction when it does
not underflow. -/
theorem wsub64_eq_sub {a b : Nat} (hb : b ≤ a) (ha : a < U64MOD) :
    wsub64 a b = a - b := by
  unfold wsub64
  have h1 : U64MOD + a - b = U64MOD + (a - b) := by omega
  rw [h1, Nat.add_mod_left, Nat.mod_eq_of_lt (by omega)]

/-- Helper: wrapping `u128` subtraction is plain subtraction when it does
not underflow. -/
theorem wsub128_eq_sub {a b : Nat} (hb : b ≤ a) (ha : a < U128MOD) :
    wsub128 a b = a - b := by
  unfold wsub128
  have h1 : U128MOD + a - b = U128MOD + (a - b) := by omega
  rw [h1, Nat.add_mod_left, Nat.mod_eq_of_lt (by omega)]

/-- C6: a restake — `perform_staking` on an initialized user record, with
no intermediate value overflowing 64/128 bits — adds
`floor(apy * total_staked * (now - stake_ts) / 31536000000)` to both the
user's `interest_accrued` and the contract's `total_earned`, adds the
staked amount to both `total_staked` fields, stamps `stake_ts = now`, and
overwrites `lock_duration` with the newly supplied value (in particular
for LOCKED); a restake whose requested stake type differs from the stored
type is rejected with no event and no state change. -/
theorem c6_restake (fpa : Seeds → Pubkey → Pubkey × Nat) (pid : Pubkey)
    (a : StakeAccounts) (now : Nat) (fs : Nat → Nat)
    (stake_type : StakeType) (amount dec apy lock_duration : Nat)
    (hpda : a.user_data_key = (fpa (.user a.user_key) pid).1)
    (hlen : a.user_data_len ≠ 0)
    (hinit : a.user_data.is_initialized = true)
    (hts : a.user_data.stake_ts ≤ now) (hnow : now < U64MOD)
    (hprod : apy * a.user_data.total_staked * (now - a.user_data.stake_ts) < U128MOD)
    (hq : apy * a.user_data.total_staked * (now - a.user_data.stake_ts) / 31536000000 < U64MOD)
    (hia : a.user_data.interest_accrued +
      apy * a.user_data.total_staked * (now - a.user_data.stake_ts) / 31536000000 < U64MOD)
    (hustk : a.user_data.total_staked + amount < U64MOD)
    (hcstk : a.contract_data.total_staked + amount < U64MOD)
    (hce : a.contract_data.total_earned +
      apy * a.user_data.total_staked * (now - a.user_data.stake_ts) / 31536000000 < U64MOD) :
    (stake_type = a.user_data.stake_type →
      Processor.perform_staking fpa pid a now fs stake_type amount dec apy lock_duration =
        ([Event.transferWithFee a.user_token_key a.contract_data.stake_token_mint
            a.contract_token_key a.user_key amount dec (fs amount)],
         .ok ({ a.user_data with
                interest_accrued := a.user_data.interest_accrued +
                  apy * a.user_data.total_staked * (now - a.user_data.stake_ts) / 31536000000
                total_staked := a.user_data.total_staked + amount
                stake_ts := now
                lock_duration := lock_duration },
              { a.contract_data with
                total_staked := a.contract_data.total_staked + amount
                total_earned := a.contract_data.total_earned +
                  apy * a.user_data.total_staked * (now - a.user_data.stake_ts) / 31536000000 }))) ∧
    (stake_type ≠ a.user_data.stake_type →
      Processor.perform_staking fpa pid a now fs stake_type amount dec apy lock_duration =
        ([], .error .InvalidInstructionData)) := by
  constructor
  · intro hmatch
    simp only [Processor.perform_staking, hpda, hlen, hinit, hmatch, ne_eq,
      not_true_eq_false, Bool.not_true, if_neg, ite_false, if_false,
      not_false_eq_true, ite_true, if_true, Bool.false_eq_true]
    simp only [wsub64_eq_sub hts hnow, interestAccrued_eq hprod hq,
      wrap64_eq_of_lt hia, wrap64_eq_of_lt hustk, wrap64_eq_of_lt hcstk,
      wrap64_eq_of_lt hce, List.nil_append]
  · intro hmis
    simp only [Processor.perform_staking, hpda, hlen, hinit, hmis, ne_eq,
      not_true_eq_false, Bool.not_true, Bool.false_eq_true, if_neg, ite_false,
      if_false, not_false_eq_true, ite_true, if_true]

/-- Witness for C6 at spec scenario B's shape: restake NORMAL amount 10 on
principal 100 at apy 100 after 10000000 s — principal 110 on both records,
interest 3 = floor(100*100*10000000/31536000000) folded into both. -/
theorem c6_restake_witness :
    Processor.perform_staking fpa0 pid0 cx3_accs 10000000 (fun _ => 0)
      .NORMAL 10 9 100 0 =
      ([Event.transferWithFee 5 2 4 3 10 9 0],
       .ok (cw6_user_after, cw6_contract_after)) :=
  (c6_restake fpa0 pid0 cx3_accs 10000000 (fun _ => 0) .NORMAL 10 9 100 0
    (by decide) (by decide) (by decide) (by decide) (by decide) (by decide)
    (by decide) (by decide) (by decide) (by decide) (by decide)).1 (by decide)

/-- C7: an early LOCKED unstake (elapsed < lock_duration, per-mille fee
≤ 1000, well-formed principal) pays out exactly
`principal - floor(early_withdrawal_fee * principal / 1000)`, includes no
interest, and leaves the contract's `total_earned` unchanged (while
subtracting the user's principal from the contract's `total_staked`). -/
theorem c7_locked_early_unstake (fpa : Seeds → Pubkey → Pubkey × Nat)
    (pid : Pubkey) (a : StakeAccounts) (now : Nat) (fs : Nat → Nat)
    (apy dec : Nat)
    (hpda : a.user_data_key = (fpa (.user a.user_key) pid).1)
    (hts : a.user_data.stake_ts ≤ now) (hnow : now < U64MOD)
    (hearly : now - a.user_data.stake_ts < a.user_data.lock_duration)
    (hfee : a.contract_data.early_withdrawal_fee ≤ 1000)
    (hstk : a.user_data.total_staked < U64MOD) :
    ∃ evs r, Processor.perform_unstake fpa pid a now fs .LOCKED apy dec =
        (evs, .ok r) ∧
      r.amount_out = a.user_data.total_staked -
        a.contract_data.early_withdrawal_fee * a.user_data.total_staked / 1000 ∧
      r.contract.total_earned = a.contract_data.total_earned ∧
      r.contract.total_staked =
        a.contract_data.total_staked - a.user_data.total_staked := by
  have hch : a.contract_data.early_withdrawal_fee * a.user_data.total_staked / 1000 ≤
      a.user_data.total_staked := by
    calc a.contract_data.early_withdrawal_fee * a.user_data.total_staked / 1000
        ≤ 1000 * a.user_data.total_staked / 1000 :=
          Nat.div_le_div_right (Nat.mul_le_mul_right _ hfee)
      _ = a.user_data.total_staked := Nat.mul_div_cancel_left _ (by norm_num)
  have hno : ¬ a.user_data.lock_duration ≤ wsub64 now a.user_data.stake_ts := by
    rw [wsub64_eq_sub hts hnow]; omega
  have hstk128 : a.user_data.total_staked < U128MOD := by
    have : U64MOD < U128MOD := by norm_num [U64MOD, U128MOD]
    omega
  simp only [Processor.perform_unstake, hpda, hno, ne_eq, not_true_eq_false,
    ite_false, if_false, eq_self_iff_true, not_true, if_neg, if_true, ite_true]
  refine ⟨_, _, rfl, ?_, rfl, rfl⟩
  show wrap64 (wsub128 a.user_data.total_staked _) = _
  rw [wsub128_eq_sub hch hstk128, wrap64_eq_of_lt (by omega)]

/-- Witness for C7: LOCKED unstake of principal 100 with 50‰ fee after
1000 s of a 2592000 s lock pays 100 − 5 with `total_earned` unchanged. -/
theorem c7_locked_early_unstake_witness :
    ∃ evs r, Processor.perform_unstake fpa0 pid0 cx7_accs 1000 (fun _ => 0)
        .LOCKED 200 9 = (evs, .ok r) ∧
      r.amount_out = cx7_accs.user_data.total_staked -
        cx7_accs.contract_data.early_withdrawal_fee *
          cx7_accs.user_data.total_staked / 1000 ∧
      r.contract.total_earned = cx7_accs.contract_data.total_earned ∧
      r.contract.total_staked = cx7_accs.contract_data.total_staked -
        cx7_accs.user_data.total_staked :=
  c7_locked_early_unstake fpa0 pid0 cx7_accs 1000 (fun _ => 0) 200 9
    (by decide) (by decide) (by decide) (by decide) (by decide) (by decide)

/-- C8: a NORMAL unstake attempted less than 86400 seconds after
`stake_ts` returns an error with no external call and no record written
back (the function rejects before the transfer and before any pack). -/
theorem c8_normal_unstake_min_hold (fpa : Seeds → Pubkey → Pubkey × Nat)
    (pid : Pubkey) (a : StakeAccounts) (now : Nat) (fs : Nat → Nat)
    (apy dec : Nat)
    (hpda : a.user_data_key = (fpa (.user a.user_key) pid).1)
    (hts : a.user_data.stake_ts ≤ now) (hnow : now < U64MOD)
    (hdur : now - a.user_data.stake_ts < 86400) :
    Processor.perform_unstake fpa pid a now fs .NORMAL apy dec =
      ([], .error .InvalidAccountData) := by
  have hlt : wsub64 now a.user_data.stake_ts < 86400 := by
    rw [wsub64_eq_sub hts hnow]; exact hdur
  simp only [Processor.perform_unstake, hpda, hlt, ne_eq, not_true_eq_false,
    ite_false, if_false, if_true, ite_true]

/-- Witness for C8: the spec's rejection scenario — NORMAL unstake one
second after staking fails and nothing is emitted. -/
theorem c8_normal_unstake_min_hold_witness :
    Processor.perform_unstake fpa0 pid0 cx3_accs 1 (fun _ => 0) .NORMAL 100 9 =
      ([], .error .InvalidAccountData) :=
  c8_normal_unstake_min_hold fpa0 pid0 cx3_accs 1 (fun _ => 0) 100 9
    (by decide) (by decide) (by decide) (by decide)

/-- C2: Init called on a contract record that already reports initialized
(at its correctly derived address) issues both side-effecting external
calls — account creation and vault authority transfer — and only then
fails the `is_initialized` check: the validation does not precede the
first side effect as the claim and the design rule require. -/
theorem c2_init_side_effects_before_initialized_check :
    Processor.init fpa0 pid0 cx2_accs 100 100 100 200 50 0 0 =
      ([Event.createAccount 1 1003 ContractData.LEN pid0,
        Event.setAuthority 4 1003 1],
       .error .AccountAlreadyInitialized) := by decide

/-- C3 counterexample: an Unstake with payout 100 under a mint with a zero
transfer fee passes gross 109 (= 100 + 9 % markup) to the transfer and
fee 0, so the user's net 109 − 0 differs from the computed payout 100; the
gross is not "payout plus the queried schedule fee" (which would be 100). -/
theorem c3_counterexample :
    Processor.unstake fpa0 pid0 cx3_accs 86400 (fun _ => 0) 9 =
      ([Event.transferWithFee 4 2 5 1003 109 9 0], .ok cx3_expected) ∧
    cx3_expected.amount_out_with_fee - cx3_expected.new_fee ≠
      cx3_expected.amount_out := by
  decide

/-- C3 (amended): on every successful unstake, the gross transfer amount
is the payout plus a hardcoded 9 % markup `floor(9*payout/100)` — not the
mint's schedule fee — while the fee argument handed to the token transfer
is the schedule's epoch fee queried on that gross; the single transfer
event carries exactly these values. -/
theorem c3_unstake_gross_amount (fpa : Seeds → Pubkey → Pubkey × Nat)
    (pid : Pubkey) (a : StakeAccounts) (ts : Nat) (fs : Nat → Nat)
    (st : StakeType) (apy dec : Nat) (r : Processor.UnstakeResult)
    (evs : List Event)
    (h : Processor.perform_unstake fpa pid a ts fs st apy dec = (evs, .ok r)) :
    r.amount_out_with_fee = wrap64 (r.amount_out + wrap64 (9 * r.amount_out / 100)) ∧
    r.new_fee = fs r.amount_out_with_fee ∧
    evs = [Event.transferWithFee a.contract_token_key
      a.contract_data.stake_token_mint a.user_token_key
      (fpa (.contract a.contract_data.admin_pubkey
        a.contract_data.stake_token_mint) pid).1
      r.amount_out_with_fee dec r.new_fee] := by
  simp only [Processor.perform_unstake] at h
  cases st <;> split_ifs at h <;>
    simp only [Prod.mk.injEq, Except.ok.injEq, reduceCtorEq, false_and,
      and_false] at h <;>
    obtain ⟨hevs, hr⟩ := h <;> subst hr <;> subst hevs <;>
    exact ⟨rfl, rfl, rfl⟩

/-- Witness for C3's amended theorem at the concrete unstake `cx3_accs`. -/
theorem c3_unstake_gross_amount_witness :
    cx3_expected.amount_out_with_fee =
      wrap64 (cx3_expected.amount_out + wrap64 (9 * cx3_expected.amount_out / 100)) ∧
    cx3_expected.new_fee = (fun _ => 0) cx3_expected.amount_out_with_fee ∧
    [Event.transferWithFee 4 2 5 1003 109 9 0] =
      [Event.transferWithFee cx3_accs.contract_token_key
        cx3_accs.contract_data.stake_token_mint cx3_accs.user_token_key
        (fpa0 (.contract cx3_accs.contract_data.admin_pubkey
          cx3_accs.contract_data.stake_token_mint) pid0).1
        cx3_expected.amount_out_with_fee 9 cx3_expected.new_fee] :=
  c3_unstake_gross_amount fpa0 pid0 cx3_accs 86400 (fun _ => 0) .NORMAL 100 9
    cx3_expected [Event.transferWithFee 4 2 5 1003 109 9 0] (by decide)

/-- C4: at the spec's own test point — apy 100000, principal
`u64::MAX/2 = 9223372036854775807`, elapsed ten years (315360000 s) — the
128-bit quotient exceeds `u64::MAX`, and the code's `as u64` narrowing
stores the quotient mod 2^64: a silently wrapped value, strictly below
the true quotient and different from the saturated value `u64::MAX`. -/
theorem c4_interest_narrowing_wraps :
    U64MOD - 1 < 100000 * 9223372036854775807 * 315360000 / 31536000000 ∧
    interestAccrued 100000 9223372036854775807 315360000 =
      (100000 * 9223372036854775807 * 315360000 / 31536000000) % U64MOD ∧
    interestAccrued 100000 9223372036854775807 315360000 ≠ U64MOD - 1 ∧
    interestAccrued 100000 9223372036854775807 315360000 <
      100000 * 9223372036854775807 * 315360000 / 31536000000 := by
  refine ⟨by norm_num [U64MOD], ?_, by decide, ?_⟩
  · norm_num [interestAccrued, wrap64, wrap128, U64MOD, U128MOD]
  · norm_num [interestAccrued, wrap64, wrap128, U64MOD, U128MOD]

/-- C1 (amended): Init, Stake and Unstake all reject — before issuing any
external call or producing a new record — when the supplied
contract-record account's address differs from the address derived from
the `("spl_staking", admin, mint)` seed tuple and the program id (for Init
from the supplied admin and mint accounts, for Stake/Unstake from the
record's embedded fields).  UpdateAPY performs no such check (see the
counterexample). -/
theorem c1_pda_check :
    (∀ fpa pid (a : InitAccounts) p1 p2 p3 p4 p5 p6 p7,
      (fpa (.contract a.admin_key a.mint_key) pid).1 ≠ a.data_account_key →
      ∃ e, Processor.init fpa pid a p1 p2 p3 p4 p5 p6 p7 = ([], .error e)) ∧
    (∀ fpa pid (a : StakeAccounts) ts fs st amount lk dec,
      (fpa (.contract a.contract_data.admin_pubkey
        a.contract_data.stake_token_mint) pid).1 ≠ a.contract_data_key →
      ∃ e, Processor.stake fpa pid a ts fs st amount lk dec = ([], .error e)) ∧
    (∀ fpa pid (a : StakeAccounts) ts fs dec,
      (fpa (.contract a.contract_data.admin_pubkey
        a.contract_data.stake_token_mint) pid).1 ≠ a.contract_data_key →
      ∃ e, Processor.unstake fpa pid a ts fs dec = ([], .error e)) := by
  refine ⟨?_, ?_, ?_⟩
  · intro fpa pid a p1 p2 p3 p4 p5 p6 p7 hmis
    simp only [Processor.init]
    split_ifs <;> exact ⟨_, rfl⟩
  · intro fpa pid a ts fs st amount lk dec hmis
    simp only [Processor.stake]
    split_ifs <;> exact ⟨_, rfl⟩
  · intro fpa pid a ts fs dec hmis
    simp only [Processor.unstake]
    split_ifs <;> exact ⟨_, rfl⟩

/-- Witness for C1's amended theorem: Init with a mismatched
contract-record address rejects with no event. -/
theorem c1_pda_check_witness :
    ∃ e, Processor.init fpa0 pid0 cw1_accs 1 0 1 1 0 0 0 = ([], .error e) :=
  c1_pda_check.1 fpa0 pid0 cw1_accs 1 0 1 1 0 0 0 (by decide)

/-- C1 counterexample: UpdateAPY accepts a contract-record account whose
address (55) differs from the address derived from its embedded
admin+mint fields (1003 under `fpa0`), and mutates the record — the
processor's `update_apy` never calls the derivation. -/
theorem c1_counterexample :
    (fpa0 (.contract cx1_accs.contract_data.admin_pubkey
      cx1_accs.contract_data.stake_token_mint) pid0).1 ≠ cx1_accs.data_account_key ∧
    (Processor.update_apy pid0 cx1_accs 5 6).2 = .ok cx1_expected := by decide

/-- C5 (amended): `Instruction::unpack` returns `InvalidInstructionData`
for an empty buffer, an unrecognized tag (≥ 5), an UnStake payload shorter
than 8 bytes, and a full-length Stake payload whose stake_type byte is
neither 0 nor 1; but for tags 0, 1, 3 and 4 a payload shorter than the
tag's fixed size panics (out-of-bounds slice index in `array_ref!`)
instead of returning a decode error. -/
theorem c5_unpack_decode_outcomes :
    (Instruction.unpack [] = .invalidInstructionData) ∧
    (∀ t rest, 5 ≤ t → Instruction.unpack (t :: rest) = .invalidInstructionData) ∧
    (∀ rest : List Nat, rest.length < 8 →
      Instruction.unpack (2 :: rest) = .invalidInstructionData) ∧
    (∀ rest : List Nat, 25 ≤ rest.length → 2 ≤ rest.headI →
      Instruction.unpack (1 :: rest) = .invalidInstructionData) ∧
    (∀ rest : List Nat, rest.length < 56 → Instruction.unpack (0 :: rest) = .panic) ∧
    (∀ rest : List Nat, rest.length < 25 → Instruction.unpack (1 :: rest) = .panic) ∧
    (∀ rest : List Nat, rest.length < 16 → Instruction.unpack (3 :: rest) = .panic) ∧
    (∀ rest : List Nat, rest.length < 16 → Instruction.unpack (4 :: rest) = .panic) := by
  refine ⟨by decide, ?_, ?_, ?_, ?_, ?_, ?_, ?_⟩
  · intro t rest ht
    have h0 : t ≠ 0 := by omega
    have h1 : t ≠ 1 := by omega
    have h2 : t ≠ 2 := by omega
    have h3 : t ≠ 3 := by omega
    have h4 : t ≠ 4 := by omega
    simp [Instruction.unpack, h0, h1, h2, h3, h4]
  · intro rest h
    have h8 : ¬ 8 ≤ rest.length := by omega
    simp [Instruction.unpack, unpack_u64, h8]
  · intro rest h1 h2
    have h3 : ¬ rest.length < 25 := by omega
    have h4 : rest.headI ≠ 0 := by omega
    have h5 : rest.headI ≠ 1 := by omega
    simp [Instruction.unpack, h3, h4, h5]
  · intro rest h
    simp [Instruction.unpack, h]
  · intro rest h
    simp [Instruction.unpack, h]
  · intro rest h
    simp [Instruction.unpack, h]
  · intro rest h
    simp [Instruction.unpack, h]

/-- Witness for C5's amended theorem at the concrete tag byte 7. -/
theorem c5_unpack_decode_outcomes_witness :
    Instruction.unpack [7] = .invalidInstructionData :=
  c5_unpack_decode_outcomes.2.1 7 [] (by norm_num)

/-- C5 counterexample: the buffer `[0]` (Init tag, empty payload) is
shorter than the tag's 56-byte fixed payload, and `unpack` panics
(out-of-bounds slice index in `array_ref!`) rather than returning the
`InvalidInstructionData` error the claim requires. -/
theorem c5_counterexample :
    Instruction.unpack [0] = .panic ∧
    Instruction.unpack [0] ≠ .invalidInstructionData := by decide


/-- Helper: saturating addition never decreases a well-formed left
operand. -/
theorem le_satAdd64 {a : Nat} (b : Nat) (h : a < U64MOD) : a ≤ satAdd64 a b := by
  unfold satAdd64
  exact le_min (Nat.le_add_right a b) (by omega)

/-- C9 (amended): the contract's `total_earned` never decreases under any
successful Unstake (the unstake paths use `saturating_add`), and UpdateApy
leaves both `total_earned` and `total_staked` unchanged; on a successful
Stake, `total_earned` is non-decreasing provided the restake's wrapping
64-bit addition `total_earned + interest` does not overflow — without that
proviso it can decrease (see the counterexample chain). -/
theorem c9_total_earned_monotonicity :
    (∀ fpa pid (a : StakeAccounts) now fs st apy dec evs r,
      Processor.perform_unstake fpa pid a now fs st apy dec = (evs, .ok r) →
      a.contract_data.total_earned < U64MOD →
      a.contract_data.total_earned ≤ r.contract.total_earned) ∧
    (∀ pid (a : UpdateApyAccounts) napy lapy c,
      (Processor.update_apy pid a napy lapy).2 = .ok c →
      c.total_earned = a.contract_data.total_earned ∧
      c.total_staked = a.contract_data.total_staked) ∧
    (∀ fpa pid (a : StakeAccounts) now fs st amount dec apy lock evs u c,
      Processor.perform_staking fpa pid a now fs st amount dec apy lock =
        (evs, .ok (u, c)) →
      a.contract_data.total_earned + interestAccrued apy a.user_data.total_staked
        (wsub64 now a.user_data.stake_ts) < U64MOD →
      a.contract_data.total_earned ≤ c.total_earned) := by
  refine ⟨?_, ?_, ?_⟩
  · intro fpa pid a now fs st apy dec evs r h hwf
    simp only [Processor.perform_unstake] at h
    cases st <;> split_ifs at h <;>
      simp only [Prod.mk.injEq, Except.ok.injEq, reduceCtorEq, false_and,
        and_false] at h <;>
      obtain ⟨hevs, hr⟩ := h <;> subst hr <;>
      first
        | exact le_satAdd64 _ hwf
        | exact le_refl _
  · intro pid a napy lapy c h
    simp only [Processor.update_apy] at h
    split_ifs at h
    simp only [Except.ok.injEq, reduceCtorEq] at h
    subst h
    exact ⟨rfl, rfl⟩
  · intro fpa pid a now fs st amount dec apy lock evs u c h hw
    simp only [Processor.perform_staking] at h
    split_ifs at h <;>
      simp only [Prod.mk.injEq, Except.ok.injEq, reduceCtorEq, false_and,
        and_false] at h
    all_goals
      first
        | (obtain ⟨hevs, hu, hc⟩ := h
           subst hc
           first
             | exact le_refl _
             | (rw [wrap64_eq_of_lt hw]; exact Nat.le_add_right _ _))
        | simp_all

/-- Witness for C9's amended theorem: the UpdateApy conjunct at the
concrete `cx1_accs`. -/
theorem c9_total_earned_monotonicity_witness :
    cx1_expected.total_earned = cx1_accs.contract_data.total_earned ∧
    cx1_expected.total_staked = cx1_accs.contract_data.total_staked :=
  c9_total_earned_monotonicity.2.1 pid0 cx1_accs 5 6 cx1_expected (by decide)

/-- C9 counterexample: a reachable four-step chain — Init (APY
31536000000, unvalidated), first stake of u64::MAX, restake of 0 one
second later (interest u64::MAX, `total_earned` = u64::MAX), second
restake of 0 another second later — on which the restake path's wrapping
addition makes `total_earned` DECREASE from u64::MAX to u64::MAX − 1. -/
theorem c9_counterexample :
    (Processor.init fpa0 pid0 c9_init_accs 1 0 31536000000 1 0 0 0).2 =
      .ok c9_c0 ∧
    (Processor.stake fpa0 pid0 c9_accs1 1000 (fun _ => 0) .NORMAL
      18446744073709551615 0 9).2 = .ok (c9_u1, c9_c1) ∧
    (Processor.stake fpa0 pid0 c9_accs2 1001 (fun _ => 0) .NORMAL 0 0 9).2 =
      .ok (c9_u2, c9_c2) ∧
    (Processor.stake fpa0 pid0 c9_accs3 1002 (fun _ => 0) .NORMAL 0 0 9).2 =
      .ok (c9_u3, c9_c3) ∧
    c9_c3.total_earned < c9_c2.total_earned := by decide

/-- C10: Stake never compares the staked `amount` against the contract's
`minimum_stake_amount` — only the user's token-account balance is checked
against the minimum.  For every `amount` (0 included), if the signer and
account cross-checks pass, the balance meets the minimum, the user record
is fresh, and (for LOCKED) the lock duration meets the minimum, the stake
succeeds and records exactly `amount` as the user's staked principal. -/
theorem c10_stake_amount_unchecked (fpa : Seeds → Pubkey → Pubkey × Nat)
    (pid : Pubkey) (a : StakeAccounts) (now : Nat) (fs : Nat → Nat)
    (stake_type : StakeType) (amount lock_duration dec : Nat)
    (hsig : a.user_is_signer = true)
    (howner : a.user_token.owner = a.user_key)
    (hmint : a.user_token.mint = a.contract_data.stake_token_mint)
    (hbal : a.contract_data.minimum_stake_amount <= a.user_token.amount)
    (hcpda : (fpa (.contract a.contract_data.admin_pubkey
      a.contract_data.stake_token_mint) pid).1 = a.contract_data_key)
    (htok : a.contract_token_key = a.contract_data.stake_token_account)
    (htokmint : a.contract_token.mint = a.contract_data.stake_token_mint)
    (htokown : a.contract_token.owner = a.contract_data_key)
    (hupda : a.user_data_key = (fpa (.user a.user_key) pid).1)
    (hlen : a.user_data_len = 0)
    (hlock : stake_type = .LOCKED →
      a.contract_data.minimum_lock_duration <= lock_duration) :
    ∃ u c, Processor.stake fpa pid a now fs stake_type amount lock_duration dec =
        ([Event.createAccount a.user_key (fpa (.user a.user_key) pid).1
            UserData.LEN pid,
          Event.transferWithFee a.user_token_key a.contract_data.stake_token_mint
            a.contract_token_key a.user_key amount dec (fs amount)],
         .ok (u, c)) ∧
      u.total_staked = amount ∧ u.is_initialized = true ∧
      c.total_staked = wrap64 (a.contract_data.total_staked + amount) := by
  have hnb : ¬ a.user_token.amount < a.contract_data.minimum_stake_amount :=
    not_lt.mpr hbal
  cases stake_type
  · simp only [Processor.stake, Processor.perform_staking, hsig, howner, hmint,
      hnb, hcpda, htok, htokmint, htokown, hupda, hlen, ne_eq,
      not_true_eq_false, Bool.not_true, ite_false, if_false, ite_true, if_true,
      not_false_eq_true, Bool.not_false, Bool.false_eq_true, if_neg, if_pos,
      Bool.true_eq_false, List.cons_append, List.nil_append]
    exact ⟨_, _, rfl, rfl, rfl, rfl⟩
  · have hnl : ¬ lock_duration < a.contract_data.minimum_lock_duration :=
      not_lt.mpr (hlock rfl)
    simp only [Processor.stake, Processor.perform_staking, hsig, howner, hmint,
      hnb, hnl, hcpda, htok, htokmint, htokown, hupda, hlen, ne_eq,
      not_true_eq_false, Bool.not_true, ite_false, if_false, ite_true, if_true,
      not_false_eq_true, Bool.not_false, Bool.false_eq_true, if_neg, if_pos,
      Bool.true_eq_false, List.cons_append, List.nil_append]
    exact ⟨_, _, rfl, rfl, rfl, rfl⟩

/-- Witness for C10: a stake of amount 0 against a contract whose minimum
stake is 100 succeeds (the user merely holds a balance of 100) and records
0 as staked principal. -/
theorem c10_stake_amount_unchecked_witness :
    ∃ u c, Processor.stake fpa0 pid0 cw10_accs 500 (fun _ => 0) .NORMAL 0 0 9 =
        ([Event.createAccount cw10_accs.user_key
            (fpa0 (.user cw10_accs.user_key) pid0).1 UserData.LEN pid0,
          Event.transferWithFee cw10_accs.user_token_key
            cw10_accs.contract_data.stake_token_mint
            cw10_accs.contract_token_key cw10_accs.user_key 0 9
            ((fun _ => 0) 0)],
         .ok (u, c)) ∧
      u.total_staked = 0 ∧ u.is_initialized = true ∧
      c.total_staked = wrap64 (cw10_accs.contract_data.total_staked + 0) :=
  c10_stake_amount_unchecked fpa0 pid0 cw10_accs 500 (fun _ => 0) .NORMAL 0 0 9
    (by decide) (by decide) (by decide) (by decide) (by decide) (by decide)
    (by decide) (by decide) (by decide) (by decide)
    (fun h => by cases h)

end SplStaking

